import Mathlib

/-!
Verification of the `FinancialDataValidator` field validator.

Shallow embedding of `src/python/data_validation.py` (class
`FinancialDataValidator`, methods `validate_field` and `_apply_rule`).

Modelling conventions:
* Python floats are modelled as exact rationals (`ℚ`); the special values
  `nan`/`inf`, underscore digit separators and int-overflow corners are
  outside the model.
* Python exceptions are modelled with `Except PyErr`: the method
  `_apply_rule` can raise `NameError` (its final fall-through
  `return ValidationResult(True, [], [], cleaned_value)` on line 212 reads
  the name `cleaned_value`, which is never bound in that function's scope)
  and `RecursionError` (the NEGATIVE branch on line 105 recursively
  delegates to NEGATIVE itself).  Recursion depth is modelled by fuel;
  exhausted fuel is `RecursionError`, mirroring CPython's recursion limit.
* Python's `None` is a first-class value (`Value.none`); the dataclass
  default `cleaned_value=None` and an explicit `None` are identical in
  Python, so `ValidationResult.cleaned_value : Value` with `Value.none`
  as the default plays both roles, and the merge test
  `result.cleaned_value is not None` is `≠ Value.none`.
* The regular expressions appearing in the source are translated into
  executable character-list parsers; each definition's comment quotes the
  regex it implements.
-/

namespace DataValidation

/-- Python numbers as they appear in `parameters` dicts: `int` or `float`.
Needed because f-string formatting (`f"Value must be at least {min_val}"`)
distinguishes `100` from `100.0`. -/
inductive PyNum where
  | int (n : Int)
  | float (q : ℚ)
deriving DecidableEq

/-- Numeric value of a parameter, for comparisons. -/
def PyNum.toQ : PyNum → ℚ
  | .int n => (n : ℚ)
  | .float q => q

/-- Python `str()` of a parameter as used in f-string error messages.
For `int` this is exact (`str(100) = "100"`); for `float` the model prints
`num/den` of the rational, which agrees with Python only on integral
floats — every claim under verification uses `int` parameters only. -/
def PyNum.pyRepr : PyNum → String
  | .int n => toString n
  | .float q => if q.den = 1 then toString q.num ++ ".0" else toString q.num ++ "/" ++ toString q.den

/-- A Python date (`datetime.date`), as produced by `datetime.strptime(...).date()`. -/
structure PyDate where
  year : Nat
  month : Nat
  day : Nat
deriving DecidableEq

/-- The dynamic values `validate_field` is exercised with: `None`, `str`,
`int`, `float` and `datetime.date`. -/
inductive Value where
  | none
  | str (s : String)
  | int (n : Int)
  | float (q : ℚ)
  | date (d : PyDate)
deriving DecidableEq

/-- Exceptions the validator's code paths can actually raise. -/
inductive PyErr where
  | nameError
  | recursionError
  | typeError
deriving DecidableEq

/-- `class ValidationRule(Enum)` — the closed set of rule kinds. -/
inductive ValidationRule where
  | required
  | numeric
  | positive
  | negative
  | percentage
  | currency
  | date
  | email
  | phone
  | tax_id
  | range
  | length
  | regex
  | custom
deriving DecidableEq

/-- `@dataclass ValidationResult`.  `cleaned_value` defaults to Python
`None`, here `Value.none`. -/
structure ValidationResult where
  is_valid : Bool
  errors : List String
  warnings : List String
  cleaned_value : Value := Value.none
deriving DecidableEq

/-- The rule-specific `parameters` dict.  The source reads only the keys
`min`, `max` (RANGE, LENGTH) and `pattern` (REGEX); a REGEX pattern is
modelled as its matching function. -/
structure RuleParams where
  min : Option PyNum := Option.none
  max : Option PyNum := Option.none
  pattern : Option (String → Bool) := Option.none

/-- `@dataclass ValidationRuleConfig`. -/
structure ValidationRuleConfig where
  rule_type : ValidationRule
  parameters : RuleParams := {}
  error_message : Option String := Option.none
  warning_message : Option String := Option.none

/-! ## String helpers (Python `str.strip`, `float`, `re` translations) -/

/-- Python `\s` / `str.strip` whitespace on ASCII input. -/
def pyIsSpace (c : Char) : Bool :=
  c = ' ' || c = '\t' || c = '\n' || c = '\r' || c = '\x0b' || c = '\x0c'

/-- `str.strip()` on a character list. -/
def pyStripList (cs : List Char) : List Char :=
  ((cs.dropWhile pyIsSpace).reverse.dropWhile pyIsSpace).reverse

/-- `value.strip()`. -/
def pyStrip (s : String) : String :=
  String.mk (pyStripList s.toList)

/-- Characters removed by `re.sub(r'[$,€£¥₹\s]', '', ...)` in the NUMERIC rule. -/
def isCurrencyJunk (c : Char) : Bool :=
  c = '$' || c = ',' || c = '€' || c = '£' || c = '¥' || c = '₹' || pyIsSpace c

/-- `re.sub(r'[$,€£¥₹\s]', '', value.strip())`. -/
def cleanNumericStr (s : String) : String :=
  String.mk ((pyStripList s.toList).filter (fun c => !(isCurrencyJunk c)))

/-- Numeric value of a digit run. -/
def digitsVal (cs : List Char) : Nat :=
  cs.foldl (fun a c => a * 10 + (c.toNat - '0'.toNat)) 0

/-- Exponent suffix of a Python float literal: `[eE][+-]?digits`, end of
input required.  The mantissa value is `sign * m / den`; the result is
that value times `10 ^ (±exponent)`, assembled with `mkRat` so that the
whole parse is integer arithmetic (exact, and evaluable by the kernel). -/
def pyFloatExp (sign : Int) (m den : Nat) : List Char → Option ℚ
  | [] => Option.some (mkRat (sign * m) den)
  | e :: rest =>
    if e = 'e' || e = 'E' then
      let (eneg, rest2) : Bool × List Char :=
        match rest with
        | '+' :: r => (false, r)
        | '-' :: r => (true, r)
        | r => (false, r)
      let (ed, rest3) := (rest2.takeWhile Char.isDigit, rest2.dropWhile Char.isDigit)
      if ed = [] || rest3 ≠ [] then Option.none
      else if eneg then Option.some (mkRat (sign * m) (den * 10 ^ digitsVal ed))
      else Option.some (mkRat (sign * (m * 10 ^ digitsVal ed)) den)
    else Option.none

/-- Python `float(s)` on the strings the validator produces (no embedded
whitespace; `nan`/`inf`/underscores outside the model): `[+-]?` then
`digits`, `digits.digits`, `digits.`, or `.digits`, then an optional
exponent.  `digits.fracdigits` denotes `(digits * 10^k + fracdigits) / 10^k`. -/
def pyFloat (s : String) : Option ℚ :=
  let cs := s.toList
  let (sign, cs) : Int × List Char :=
    match cs with
    | '+' :: r => (1, r)
    | '-' :: r => (-1, r)
    | r => (1, r)
  let (ip, r1) := (cs.takeWhile Char.isDigit, cs.dropWhile Char.isDigit)
  match r1 with
  | '.' :: r2 =>
    let (fp, r3) := (r2.takeWhile Char.isDigit, r2.dropWhile Char.isDigit)
    if ip = [] && fp = [] then Option.none
    else pyFloatExp sign (digitsVal ip * 10 ^ fp.length + digitsVal fp) (10 ^ fp.length) r3
  | _ =>
    if ip = [] then Option.none
    else pyFloatExp sign (digitsVal ip) 1 r1

/-! ## CURRENCY extraction

`re.search(r'[^\d.,]*([\d,]+\.?\d*)', value)`: the search skips characters
until the capture group can start, i.e. until the first character that is a
digit or a comma (a bare `.` cannot start the group and the search advances
past it); the group then takes a maximal `[\d,]+` run, an optional `.`, and
a maximal digit run. -/

/-- The capture group `([\d,]+\.?\d*)` starting exactly at `cs`. -/
def currencyGroupHere (cs : List Char) : List Char :=
  let run1 := cs.takeWhile (fun c => c.isDigit || c = ',')
  let rest := cs.dropWhile (fun c => c.isDigit || c = ',')
  match rest with
  | '.' :: r2 => run1 ++ '.' :: r2.takeWhile Char.isDigit
  | _ => run1

/-- `re.search` for the currency pattern: first digit-or-comma position
starts the group; `Option.none` when the string has no digit or comma. -/
def currencySearch : List Char → Option (List Char)
  | [] => Option.none
  | c :: rest =>
    if c.isDigit || c = ',' then Option.some (currencyGroupHere (c :: rest))
    else currencySearch rest

/-- Lines 128-136: extract the group, `amount_str = match.group(1).replace(',', '')`,
`float(amount_str)`; a `ValueError` there falls to the same failure return as
"no match". -/
def currencyAmount (s : String) : Option ℚ :=
  (currencySearch s.toList).bind fun g => pyFloat (String.mk (g.filter (fun c => c ≠ ',')))

/-! ## EMAIL

`re.match(r'^[a-zA-Z0-9._%+-]+@[a-zA-Z0-9.-]+\.[a-zA-Z]{2,}$', value)`.
The match exists iff the part before the first `@` is a nonempty run of
local-part characters and the part after it splits at its last `.` into a
nonempty domain run and a trailing run of at least two letters (an earlier
dot cannot work, since the trailing `[a-zA-Z]{2,}` admits no dot). -/

def emailLocalChar (c : Char) : Bool :=
  c.isAlpha || c.isDigit || c = '.' || c = '_' || c = '%' || c = '+' || c = '-'

def emailDomainChar (c : Char) : Bool :=
  c.isAlpha || c.isDigit || c = '.' || c = '-'

def emailMatch (s : String) : Bool :=
  let cs := s.toList
  let loc := cs.takeWhile (fun c => c ≠ '@')
  let rest := cs.dropWhile (fun c => c ≠ '@')
  match rest with
  | '@' :: dom =>
    let tld := (dom.reverse.takeWhile (fun c => c ≠ '.')).reverse
    let pre := dom.reverse.dropWhile (fun c => c ≠ '.')
    (match pre with
     | '.' :: d =>
       loc ≠ [] && loc.all emailLocalChar &&
       d ≠ [] && d.reverse.all emailDomainChar &&
       tld.length ≥ 2 && tld.all Char.isAlpha
     | _ => false)
  | _ => false

/-! ## PHONE

Nondeterministic character-list matcher used to translate the two phone
regexes; a set of parser states is threaded through the pattern pieces and
the pattern matches when some state consumed the whole input. -/

/-- One mandatory character of a class. -/
def pOne (f : Char → Bool) (sts : List (List Char)) : List (List Char) :=
  sts.filterMap fun cs =>
    match cs with
    | c :: r => if f c then Option.some r else Option.none
    | [] => Option.none

/-- An optional character of a class (`X?`). -/
def pOpt (f : Char → Bool) (sts : List (List Char)) : List (List Char) :=
  pOne f sts ++ sts

/-- Exactly `n` characters of a class (`X{n}`). -/
def pExact (f : Char → Bool) : Nat → List (List Char) → List (List Char)
  | 0, sts => sts
  | n + 1, sts => pExact f n (pOne f sts)

/-- `extra` successive optional characters of a class. -/
def pOpts (f : Char → Bool) : Nat → List (List Char) → List (List Char)
  | 0, sts => sts
  | n + 1, sts => pOpts f n (pOpt f sts)

/-- Between `lo` and `lo + extra` characters of a class (`X{lo,lo+extra}`). -/
def pBetween (f : Char → Bool) (lo extra : Nat) (sts : List (List Char)) : List (List Char) :=
  pOpts f extra (pExact f lo sts)

/-- The separator class `[-.\s]`. -/
def phoneSep (c : Char) : Bool :=
  c = '-' || c = '.' || pyIsSpace c

/-- `r'^\+?1?[-.\s]?\(?([0-9]{3})\)?[-.\s]?([0-9]{3})[-.\s]?([0-9]{4})$'` (US). -/
def phoneUS (cs : List Char) : Bool :=
  let sts := [cs]
  let sts := pOpt (fun c => c = '+') sts
  let sts := pOpt (fun c => c = '1') sts
  let sts := pOpt phoneSep sts
  let sts := pOpt (fun c => c = '(') sts
  let sts := pExact Char.isDigit 3 sts
  let sts := pOpt (fun c => c = ')') sts
  let sts := pOpt phoneSep sts
  let sts := pExact Char.isDigit 3 sts
  let sts := pOpt phoneSep sts
  let sts := pExact Char.isDigit 4 sts
  sts.contains []

/-- `r'^\+?([0-9]{1,4})[-.\s]?([0-9]{3,4})[-.\s]?([0-9]{3,4})[-.\s]?([0-9]{3,4})$'`
(international). -/
def phoneIntl (cs : List Char) : Bool :=
  let sts := [cs]
  let sts := pOpt (fun c => c = '+') sts
  let sts := pBetween Char.isDigit 1 3 sts
  let sts := pOpt phoneSep sts
  let sts := pBetween Char.isDigit 3 1 sts
  let sts := pOpt phoneSep sts
  let sts := pBetween Char.isDigit 3 1 sts
  let sts := pOpt phoneSep sts
  let sts := pBetween Char.isDigit 3 1 sts
  sts.contains []

/-- Lines 160-162: the value matches one of `self.phone_patterns`. -/
def phoneMatch (s : String) : Bool :=
  phoneUS s.toList || phoneIntl s.toList

/-- Line 164: `re.sub(r'[^\d+]', '', value)`. -/
def cleanPhone (s : String) : String :=
  String.mk (s.toList.filter (fun c => c.isDigit || c = '+'))

/-! ## TAX_ID -/

/-- Line 175: `re.sub(r'[^\d-]', '', value)`. -/
def taxClean (s : String) : String :=
  String.mk (s.toList.filter (fun c => c.isDigit || c = '-'))

/-- `r'^\d{2}-\d{7}$'` (EIN). -/
def einMatch (s : String) : Bool :=
  match s.toList with
  | [a, b, '-', c, d, e, f, g, h, i] =>
    [a, b, c, d, e, f, g, h, i].all Char.isDigit
  | _ => false

/-- `r'^\d{3}-\d{2}-\d{4}$'` (SSN). -/
def ssnMatch (s : String) : Bool :=
  match s.toList with
  | [a, b, c, '-', d, e, '-', f, g, h, i] =>
    [a, b, c, d, e, f, g, h, i].all Char.isDigit
  | _ => false

/-! ## DATE

`datetime.strptime(value, fmt).date()` over the fixed format list
`['%Y-%m-%d', '%m/%d/%Y', '%d/%m/%Y', '%Y-%m-%d %H:%M:%S']` (line 143).
CPython's `_strptime` compiles each directive to a regex fragment
(`%Y` → `\d\d\d\d`, `%m` → `1[0-2]|0[1-9]|[1-9]`,
`%d` → `3[01]|[12]\d|0[1-9]|[1-9]`, `%H` → `2[0-3]|[0-1]\d|\d`,
`%M`/`%S` → `[0-5]\d|\d`), requires the whole string to be consumed, and
then constructs a `datetime`, which raises `ValueError` (caught, next
format tried) when the day is out of range for the month or the year is 0. -/

/-- Numeric value of a digit character. -/
def digitVal (c : Char) : Nat := c.toNat - '0'.toNat

/-- Candidate matches (in regex alternation order: two-digit alternatives
first, then the one-digit alternative) for a 1-or-2-digit numeric
directive whose two-digit form covers `lo2..hi2` and whose one-digit form
covers `lo1..9`. -/
def twoOneCands (lo2 hi2 lo1 : Nat) : List Char → List (Nat × List Char)
  | c1 :: c2 :: rest =>
    (if c1.isDigit && c2.isDigit &&
        decide (lo2 ≤ digitVal c1 * 10 + digitVal c2) &&
        decide (digitVal c1 * 10 + digitVal c2 ≤ hi2) then
      [(digitVal c1 * 10 + digitVal c2, rest)]
    else []) ++
    (if c1.isDigit && decide (lo1 ≤ digitVal c1) then [(digitVal c1, c2 :: rest)] else [])
  | [c1] => if c1.isDigit && decide (lo1 ≤ digitVal c1) then [(digitVal c1, [])] else []
  | [] => []

/-- `%m`: months `01`-`12` or `1`-`9`. -/
def monthCands : List Char → List (Nat × List Char) := twoOneCands 1 12 1

/-- `%d`: days `01`-`31` or `1`-`9`. -/
def dayCands : List Char → List (Nat × List Char) := twoOneCands 1 31 1

/-- `%H`: hours `00`-`23` or `0`-`9`. -/
def hourCands : List Char → List (Nat × List Char) := twoOneCands 0 23 0

/-- `%M` / `%S`: `00`-`59` or `0`-`9`. -/
def minSecCands : List Char → List (Nat × List Char) := twoOneCands 0 59 0

/-- `%Y`: exactly four digits. -/
def year4 : List Char → Option (Nat × List Char)
  | a :: b :: c :: d :: rest =>
    if a.isDigit && b.isDigit && c.isDigit && d.isDigit then
      Option.some (digitVal a * 1000 + digitVal b * 100 + digitVal c * 10 + digitVal d, rest)
    else Option.none
  | _ => Option.none

/-- First candidate (in order) on which the continuation succeeds —
backtracking through regex alternatives. -/
def firstSome {α β : Type} : List α → (α → Option β) → Option β
  | [], _ => Option.none
  | a :: as, f =>
    match f a with
    | Option.some b => Option.some b
    | Option.none => firstSome as f

/-- Regex stage of `%m/%d/%Y`: returns `(year, month, day)`. -/
def matchMDY (cs : List Char) : Option (Nat × Nat × Nat) :=
  firstSome (monthCands cs) fun mc =>
    match mc.2 with
    | '/' :: r2 =>
      firstSome (dayCands r2) fun dc =>
        match dc.2 with
        | '/' :: r4 =>
          match year4 r4 with
          | Option.some (y, []) => Option.some (y, mc.1, dc.1)
          | _ => Option.none
        | _ => Option.none
    | _ => Option.none

/-- Regex stage of `%d/%m/%Y`: returns `(year, month, day)`. -/
def matchDMY (cs : List Char) : Option (Nat × Nat × Nat) :=
  firstSome (dayCands cs) fun dc =>
    match dc.2 with
    | '/' :: r2 =>
      firstSome (monthCands r2) fun mc =>
        match mc.2 with
        | '/' :: r4 =>
          match year4 r4 with
          | Option.some (y, []) => Option.some (y, mc.1, dc.1)
          | _ => Option.none
        | _ => Option.none
    | _ => Option.none

/-- Regex stage of `%Y-%m-%d`; `stop` is the list of characters allowed to
follow (empty for the plain format, the time part for `%Y-%m-%d %H:%M:%S`). -/
def matchYMDCore (cs : List Char) (k : List Char → Option Unit) : Option (Nat × Nat × Nat) :=
  match year4 cs with
  | Option.some (y, '-' :: r2) =>
    firstSome (monthCands r2) fun mc =>
      match mc.2 with
      | '-' :: r4 =>
        firstSome (dayCands r4) fun dc =>
          match k dc.2 with
          | Option.some _ => Option.some (y, mc.1, dc.1)
          | Option.none => Option.none
      | _ => Option.none
  | _ => Option.none

/-- Regex stage of `%Y-%m-%d`. -/
def matchYMD (cs : List Char) : Option (Nat × Nat × Nat) :=
  matchYMDCore cs fun rest => if rest = [] then Option.some () else Option.none

/-- Regex stage of `%Y-%m-%d %H:%M:%S` (the time-of-day values are range
checked by the regex itself and then dropped by `.date()`). -/
def matchYMDHMS (cs : List Char) : Option (Nat × Nat × Nat) :=
  matchYMDCore cs fun rest =>
    match rest with
    | ' ' :: t1 =>
      firstSome (hourCands t1) fun hc =>
        match hc.2 with
        | ':' :: t2 =>
          firstSome (minSecCands t2) fun mc =>
            match mc.2 with
            | ':' :: t3 =>
              firstSome (minSecCands t3) fun sc =>
                if sc.2 = [] then Option.some () else Option.none
            | _ => Option.none
        | _ => Option.none
    | _ => Option.none

/-- Gregorian leap year, as `datetime` uses. -/
def isLeap (y : Nat) : Bool :=
  y % 4 = 0 && (y % 100 ≠ 0 || y % 400 = 0)

def daysInMonth (y m : Nat) : Nat :=
  if m = 2 then (if isLeap y then 29 else 28)
  else if m = 4 || m = 6 || m = 9 || m = 11 then 30
  else 31

/-- The `datetime(...)` constructor check: `MINYEAR ≤ year`, month and day
in range (the regex already bounds month and day from below). -/
def validDate (y m d : Nat) : Bool :=
  1 ≤ y && 1 ≤ m && m ≤ 12 && 1 ≤ d && d ≤ daysInMonth y m

/-- One `strptime(value, fmt).date()` attempt: regex stage then constructor
check; any failure is the caught `ValueError`. -/
def strpDate (regexStage : List Char → Option (Nat × Nat × Nat)) (cs : List Char) :
    Option PyDate :=
  (regexStage cs).bind fun t =>
    if validDate t.1 t.2.1 t.2.2 then Option.some ⟨t.1, t.2.1, t.2.2⟩ else Option.none

/-- Lines 143-149: the format list is tried in order; the first successful
parse wins. -/
def parseDateFormats (s : String) : Option PyDate :=
  match strpDate matchYMD s.toList with
  | Option.some d => Option.some d
  | Option.none =>
    match strpDate matchMDY s.toList with
    | Option.some d => Option.some d
    | Option.none =>
      match strpDate matchDMY s.toList with
      | Option.some d => Option.some d
      | Option.none => strpDate matchYMDHMS s.toList

/-! ## `_apply_rule` -/

/-- Line 76: the REQUIRED emptiness test
`value is None or value == '' or (isinstance(value, str) and value.strip() == '')`. -/
def requiredEmpty : Value → Bool
  | .none => true
  | .str s => s = "" || pyStrip s = ""
  | _ => false

/-- Line 80: the skip test `value is None or value == ''` (note: a
whitespace-only string is not caught here). -/
def isNoneOrEmptyStr : Value → Bool
  | .none => true
  | .str s => s = ""
  | _ => false

/-- `ValidationRuleConfig(ValidationRule.NUMERIC)` — the fresh default
config built for delegation (lines 98, 112, 183). -/
def numericDefault : ValidationRuleConfig := ⟨.numeric, {}, Option.none, Option.none⟩

/-- `ValidationRuleConfig(ValidationRule.NEGATIVE)` — the config the
NEGATIVE branch actually builds on line 105 (delegating to itself, not to
NUMERIC). -/
def negativeDefault : ValidationRuleConfig := ⟨.negative, {}, Option.none, Option.none⟩

/-- Line 118: `val / 100`, written with `mkRat` so the kernel can evaluate
it (`mkRat n (d * 100) = (n / d) / 100` exactly). -/
def ratDiv100 (q : ℚ) : ℚ := mkRat q.num (q.den * 100)


/-- Line 117: `isinstance(value, str) and '%' in value`. -/
def hasPercentStr : Value → Bool
  | .str s => s.toList.contains '%'
  | _ => false

/-- `val_m.getD d` spelled out: `rule_config.error_message or "default"`. -/
def msgOr (m : Option String) (d : String) : String := m.getD d

/-- The body of `_apply_rule` (lines 70-212); `recur` is the recursive
call with one less unit of recursion depth.  Paths on which the Python
method falls through every branch end at line 212,
`return ValidationResult(True, [], [], cleaned_value)`, which raises
`NameError` because no `cleaned_value` is in scope there; such paths are
`.error .nameError`. -/
def applyRuleGo (recur : Value → ValidationRuleConfig → Except PyErr ValidationResult)
    (value : Value) (rc : ValidationRuleConfig) : Except PyErr ValidationResult :=
  if rc.rule_type = .required && requiredEmpty value then
    .ok ⟨false, [msgOr rc.error_message "Field is required"], [], .none⟩
  else if isNoneOrEmptyStr value then
    .ok ⟨true, [], [], .none⟩
  else
    match rc.rule_type with
    | .numeric =>
      match value with
      | .str s =>
        match pyFloat (cleanNumericStr s) with
        | Option.some q => .ok ⟨true, [], [], .float q⟩
        | Option.none => .ok ⟨false, [msgOr rc.error_message "Invalid numeric value"], [], .none⟩
      | .int n => .ok ⟨true, [], [], .float (n : ℚ)⟩
      | .float q => .ok ⟨true, [], [], .float q⟩
      | _ => .ok ⟨false, [msgOr rc.error_message "Value must be numeric"], [], .none⟩
    | .positive =>
      match recur value numericDefault with
      | .error e => .error e
      | .ok nr =>
        if nr.is_valid = false then .ok nr
        else
          match nr.cleaned_value with
          | .float q =>
            if q ≤ 0 then
              .ok ⟨false, [msgOr rc.error_message "Value must be positive"], [], .none⟩
            else .error .nameError
          | .int n =>
            if n ≤ 0 then
              .ok ⟨false, [msgOr rc.error_message "Value must be positive"], [], .none⟩
            else .error .nameError
          | _ => .error .typeError
    | .negative =>
      match recur value negativeDefault with
      | .error e => .error e
      | .ok nr =>
        if nr.is_valid = false then .ok nr
        else
          match nr.cleaned_value with
          | .float q =>
            if 0 ≤ q then
              .ok ⟨false, [msgOr rc.error_message "Value must be negative"], [], .none⟩
            else .error .nameError
          | .int n =>
            if 0 ≤ n then
              .ok ⟨false, [msgOr rc.error_message "Value must be negative"], [], .none⟩
            else .error .nameError
          | _ => .error .typeError
    | .percentage =>
      match recur value numericDefault with
      | .error e => .error e
      | .ok nr =>
        if nr.is_valid = false then .ok nr
        else
          match nr.cleaned_value with
          | .float q =>
            let val : ℚ := if hasPercentStr value then ratDiv100 q else q
            if 0 ≤ val ∧ val ≤ 1 then .ok ⟨true, [], [], .float val⟩
            else
              .ok ⟨false, [],
                   [msgOr rc.warning_message "Percentage should be between 0% and 100%"], .none⟩
          | _ => .error .typeError
    | .currency =>
      match value with
      | .str s =>
        match currencyAmount s with
        | Option.some q => .ok ⟨true, [], [], .float q⟩
        | Option.none => .ok ⟨false, [msgOr rc.error_message "Invalid currency format"], [], .none⟩
      | _ => .error .nameError
    | .date =>
      match value with
      | .date d => .ok ⟨true, [], [], .date d⟩
      | .str s =>
        match parseDateFormats s with
        | Option.some d => .ok ⟨true, [], [], .date d⟩
        | Option.none => .ok ⟨false, [msgOr rc.error_message "Invalid date format"], [], .none⟩
      | _ => .error .nameError
    | .email =>
      match value with
      | .str s =>
        if emailMatch s then .ok ⟨true, [], [], .str s.toLower⟩
        else .ok ⟨false, [msgOr rc.error_message "Invalid email format"], [], .none⟩
      | _ => .ok ⟨false, [msgOr rc.error_message "Invalid email format"], [], .none⟩
    | .phone =>
      match value with
      | .str s =>
        if phoneMatch s then .ok ⟨true, [], [], .str (cleanPhone s)⟩
        else .ok ⟨false, [msgOr rc.error_message "Invalid phone format"], [], .none⟩
      | _ => .error .nameError
    | .tax_id =>
      match value with
      | .str s =>
        let cleaned := taxClean s
        if einMatch cleaned || ssnMatch cleaned then .ok ⟨true, [], [], .str cleaned⟩
        else .ok ⟨false, [msgOr rc.error_message "Invalid Tax ID format"], [], .none⟩
      | _ => .error .nameError
    | .range =>
      match recur value numericDefault with
      | .error e => .error e
      | .ok nr =>
        if nr.is_valid = false then .ok nr
        else
          match nr.cleaned_value with
          | .float q =>
            match rc.parameters.min with
            | Option.some m =>
              if q < m.toQ then
                .ok ⟨false, ["Value must be at least " ++ m.pyRepr], [], .none⟩
              else
                (match rc.parameters.max with
                 | Option.some mx =>
                   if q > mx.toQ then
                     .ok ⟨false, ["Value must not exceed " ++ mx.pyRepr], [], .none⟩
                   else .error .nameError
                 | Option.none => .error .nameError)
            | Option.none =>
              match rc.parameters.max with
              | Option.some mx =>
                if q > mx.toQ then
                  .ok ⟨false, ["Value must not exceed " ++ mx.pyRepr], [], .none⟩
                else .error .nameError
              | Option.none => .error .nameError
          | _ => .error .typeError
    | .length =>
      match value with
      | .str s =>
        let minLen := rc.parameters.min.getD (.int 0)
        if (s.length : ℚ) < minLen.toQ then
          .ok ⟨false, ["Minimum length is " ++ minLen.pyRepr], [], .none⟩
        else
          (match rc.parameters.max with
           | Option.some mx =>
             if (s.length : ℚ) > mx.toQ then
               .ok ⟨false, ["Maximum length is " ++ mx.pyRepr], [], .none⟩
             else .error .nameError
           | Option.none => .error .nameError)
      | _ => .error .nameError
    | .regex =>
      match rc.parameters.pattern, value with
      | Option.some p, .str s =>
        if p s then .error .nameError
        else .ok ⟨false, [msgOr rc.error_message "Value doesn't match required pattern"], [], .none⟩
      | _, _ => .error .nameError
    | .required => .error .nameError
    | .custom => .error .nameError

/-- `_apply_rule`, fuel-indexed: exhausting the recursion depth is
CPython's `RecursionError`. -/
def applyRule : Nat → Value → ValidationRuleConfig → Except PyErr ValidationResult
  | 0, _, _ => .error .recursionError
  | fuel + 1, value, rc => applyRuleGo (applyRule fuel) value rc


/-- CPython's default recursion limit, the depth budget for `_apply_rule`. -/
def recursionLimit : Nat := 1000

/-! ## `validate_field` -/

/-- Lines 56-61, one iteration: `if result.cleaned_value is not None:
cleaned_value = result.cleaned_value`. -/
def mergeClean (acc : Value) (r : ValidationResult) : Value :=
  match r.cleaned_value with
  | .none => acc
  | c => c

/-- The loop of `validate_field` with its three accumulators (`errors`,
`warnings`, `cleaned_value`). -/
def validateFieldAux (value : Value) :
    List ValidationRuleConfig → List String → List String → Value →
    Except PyErr ValidationResult
  | [], errs, warns, cleaned => .ok ⟨errs.isEmpty, errs, warns, cleaned⟩
  | rc :: rest, errs, warns, cleaned =>
    match applyRule recursionLimit value rc with
    | .error e => .error e
    | .ok r => validateFieldAux value rest (errs ++ r.errors) (warns ++ r.warnings) (mergeClean cleaned r)

/-- `validate_field(value, rules)` (lines 50-68): `cleaned_value` starts as
the raw value, the final `is_valid` is `len(errors) == 0`. -/
def validate_field (value : Value) (rules : List ValidationRuleConfig) :
    Except PyErr ValidationResult :=
  validateFieldAux value rules [] [] value

/-- `rules.mapM (_apply_rule value)` spelled out: the per-rule outcome list,
used to state the aggregation claims. -/
def ruleResults (value : Value) : List ValidationRuleConfig → Except PyErr (List ValidationResult)
  | [] => .ok []
  | rc :: rest =>
    match applyRule recursionLimit value rc with
    | .error e => .error e
    | .ok r =>
      match ruleResults value rest with
      | .error e => .error e
      | .ok rs => .ok (r :: rs)

/-! ## Rule configurations used in the claims -/

def requiredDefault : ValidationRuleConfig := ⟨.required, {}, Option.none, Option.none⟩

def positiveDefault : ValidationRuleConfig := ⟨.positive, {}, Option.none, Option.none⟩

def percentageDefault : ValidationRuleConfig := ⟨.percentage, {}, Option.none, Option.none⟩

def currencyDefault : ValidationRuleConfig := ⟨.currency, {}, Option.none, Option.none⟩

def dateDefault : ValidationRuleConfig := ⟨.date, {}, Option.none, Option.none⟩

/-- `ValidationRuleConfig(ValidationRule.RANGE, {'min': 100, 'max': 50000})`. -/
def rangeCfg100 : ValidationRuleConfig :=
  ⟨.range, ⟨Option.some (.int 100), Option.some (.int 50000), Option.none⟩,
   Option.none, Option.none⟩

/-- The per-rule outcome list of `[PERCENTAGE]` on the int 2, used in the
aggregation witness. -/
def percOutcomes : List ValidationResult :=
  [⟨false, [], ["Percentage should be between 0% and 100%"], .none⟩]

/-- Equality of modelled run outcomes is decidable, so concrete runs can be
settled by evaluation. -/
instance {α β : Type} [DecidableEq α] [DecidableEq β] : DecidableEq (Except α β) := fun a b =>
  match a, b with
  | .ok x, .ok y =>
    if h : x = y then .isTrue (by rw [h]) else .isFalse (by simp [h])
  | .error x, .error y =>
    if h : x = y then .isTrue (by rw [h]) else .isFalse (by simp [h])
  | .ok _, .error _ => .isFalse (by simp)
  | .error _, .ok _ => .isFalse (by simp)

/-! ## Helper lemmas -/

/-- Sanity: `ratDiv100` is division by 100. -/
theorem ratDiv100_eq (q : ℚ) : ratDiv100 q = q / 100 := by
  rw [ratDiv100, Rat.mkRat_eq_div]
  push_cast
  rw [div_mul_eq_div_div, Rat.num_div_den]

/-- Unfolding `applyRule` at a successor amount of fuel. -/
theorem applyRule_succ (fuel : Nat) (value : Value) (rc : ValidationRuleConfig) :
    applyRule (fuel + 1) value rc = applyRuleGo (applyRule fuel) value rc := rfl

/-- Unfolding `applyRule` at the concrete recursion limit. -/
theorem applyRule_limit (value : Value) (rc : ValidationRuleConfig) :
    applyRule recursionLimit value rc = applyRuleGo (applyRule 999) value rc := rfl

/-- The NEGATIVE branch (line 105) delegates to NEGATIVE itself, so on any
value that reaches the dispatch it recurses until the depth budget is
exhausted: a `RecursionError`. -/
theorem negative_rule_diverges (fuel : Nat) (v : Value) (hv : isNoneOrEmptyStr v = false) :
    applyRule fuel v negativeDefault = .error .recursionError := by
  induction fuel with
  | zero => rfl
  | succ n ih =>
    rw [applyRule_succ]
    unfold applyRuleGo
    rw [ih]
    simp [negativeDefault, hv]

/-! ## Claims -/

/-- C1: the claim "validate_field never raises" is contradicted by the
code: a REQUIRED rule on a non-empty value falls through every branch of
`_apply_rule` to line 212, whose `return ValidationResult(True, [], [],
cleaned_value)` reads the unbound name `cleaned_value` and raises
`NameError` (the module's own `__main__` smoke test hits this path). -/
theorem required_pass_raises_name_error :
    validate_field (.str "abc") [requiredDefault] = .error .nameError := by decide

/-- C4: POSITIVE fails on cleaned values 0 and -5 as claimed, but a passing
POSITIVE (cleaned value 0.01 > 0) does not return: it falls through to
line 212 and raises `NameError`; and NEGATIVE does not delegate to NUMERIC:
line 105 delegates to NEGATIVE itself, so any non-empty value makes it
recurse to `RecursionError`. -/
theorem positive_negative_rule_behavior :
    validate_field (.float 0) [positiveDefault] =
      .ok ⟨false, ["Value must be positive"], [], .float 0⟩ ∧
    validate_field (.float (-5)) [positiveDefault] =
      .ok ⟨false, ["Value must be positive"], [], .float (-5)⟩ ∧
    validate_field (.float (mkRat 1 100)) [positiveDefault] = .error .nameError ∧
    validate_field (.float (-5)) [negativeDefault] = .error .recursionError := by
  refine ⟨by decide, by decide, by decide, ?_⟩
  show validateFieldAux _ _ _ _ _ = _
  unfold validateFieldAux
  rw [negative_rule_diverges recursionLimit (.float (-5)) rfl]

/-- C5: PERCENTAGE on the string `"50%"` does not clean to 0.5: the NUMERIC
delegation does not strip `%`, `float("50%")` raises `ValueError`, and the
rule inherits the failure `"Invalid numeric value"` (the `'%' in value`
divide-by-100 branch on line 118 is unreachable for strings).  On the int
`150` it warns and the merged outcome keeps the raw value as claimed. -/
theorem percentage_rule_behavior :
    validate_field (.str "50%") [percentageDefault] =
      .ok ⟨false, ["Invalid numeric value"], [], .str "50%"⟩ ∧
    validate_field (.int 150) [percentageDefault] =
      .ok ⟨true, [], ["Percentage should be between 0% and 100%"], .int 150⟩ := by
  exact ⟨by decide, by decide⟩

/-- C6 counterexample: a whitespace-only string is not caught by the line 80
skip test (`value == ''` is `False` for `"   "`), so NUMERIC runs on it and
the merged outcome is invalid — the claim says all rules are skipped and
the field reported valid. -/
theorem whitespace_not_skipped_cex :
    validate_field (.str "   ") [numericDefault] =
      .ok ⟨false, ["Invalid numeric value"], [], .str "   "⟩ := by decide

/-- C7: RANGE `{min:100, max:50000}` on 99 fails with the claimed message,
but on the in-range value 100 the branch returns nothing and `_apply_rule`
falls through to line 212, raising `NameError` instead of passing. -/
theorem range_rule_behavior :
    validate_field (.int 99) [rangeCfg100] =
      .ok ⟨false, ["Value must be at least 100"], [], .int 99⟩ ∧
    validate_field (.int 100) [rangeCfg100] = .error .nameError := by
  exact ⟨by decide, by decide⟩

/-- C8: NUMERIC strips currency symbols, commas and whitespace from strings
and parses the rest as a float (`"$1,234.56"` → 1234.56, `"  42 "` → 42.0,
`"abc"` → error), and passes `int`/`float` input through `float(value)`. -/
theorem numeric_rule_behavior :
    validate_field (.str "$1,234.56") [numericDefault] =
      .ok ⟨true, [], [], .float (mkRat 123456 100)⟩ ∧
    validate_field (.str "  42 ") [numericDefault] = .ok ⟨true, [], [], .float 42⟩ ∧
    validate_field (.str "abc") [numericDefault] =
      .ok ⟨false, ["Invalid numeric value"], [], .str "abc"⟩ ∧
    (∀ n : Int, validate_field (.int n) [numericDefault] = .ok ⟨true, [], [], .float (n : ℚ)⟩) ∧
    (∀ q : ℚ, validate_field (.float q) [numericDefault] = .ok ⟨true, [], [], .float q⟩) := by
  exact ⟨by decide, by decide, by decide, fun n => rfl, fun q => rfl⟩

/-- C9: cleaning is not idempotent on the code.  `"$1,234.56"` under
[CURRENCY] cleans to the float 1234.56, but re-validating that float with
the same rule list raises `NameError`: the CURRENCY branch only handles
strings and a non-string falls through to line 212. -/
theorem currency_reclean_raises :
    validate_field (.str "$1,234.56") [currencyDefault] =
      .ok ⟨true, [], [], .float (mkRat 123456 100)⟩ ∧
    validate_field (.float (mkRat 123456 100)) [currencyDefault] = .error .nameError := by
  exact ⟨by decide, by decide⟩

/-- C3 counterexample: merged `is_valid` is not the AND of the per-rule
validity flags.  PERCENTAGE on the numeric value 2 returns a per-rule
outcome with `is_valid=False` and no errors (line 121), yet the merged
outcome computes `is_valid = (len(errors) == 0) = True`. -/
theorem percentage_flag_not_anded_cex :
    applyRule recursionLimit (.int 2) percentageDefault =
      .ok ⟨false, [], ["Percentage should be between 0% and 100%"], .none⟩ ∧
    validate_field (.int 2) [percentageDefault] =
      .ok ⟨true, [], ["Percentage should be between 0% and 100%"], .int 2⟩ := by
  exact ⟨by decide, by decide⟩

/-- The loop invariant behind C2: whatever the per-rule outcomes, the
final merge sets `is_valid = (len(errors) == 0)`. -/
theorem validateFieldAux_is_valid (value : Value) :
    ∀ (rules : List ValidationRuleConfig) (errs warns : List String) (cleaned : Value)
      (r : ValidationResult),
      validateFieldAux value rules errs warns cleaned = .ok r →
      (r.is_valid = true ↔ r.errors = []) := by
  intro rules
  induction rules with
  | nil =>
    intro errs warns cleaned r h
    rw [validateFieldAux] at h
    cases h
    simp [List.isEmpty_iff]
  | cons rc rest ih =>
    intro errs warns cleaned r h
    rw [validateFieldAux] at h
    cases happ : applyRule recursionLimit value rc with
    | error e => rw [happ] at h; cases h
    | ok r1 =>
      rw [happ] at h
      exact ih _ _ _ r h

/-- C2: whenever `validate_field` returns an outcome (it can instead raise,
see C1), the outcome satisfies `is_valid == (len(errors) == 0)` — line 64
computes `is_valid` from the merged error list. -/
theorem validate_field_is_valid_iff_no_errors (value : Value)
    (rules : List ValidationRuleConfig) (r : ValidationResult)
    (h : validate_field value rules = .ok r) :
    r.is_valid = true ↔ r.errors = [] :=
  validateFieldAux_is_valid value rules [] [] value r h

/-- Witness for C2 at a concrete run: NUMERIC on `"5"`. -/
theorem validate_field_is_valid_iff_no_errors_witness :
    ((⟨true, [], [], .float 5⟩ : ValidationResult).is_valid = true ↔
      (⟨true, [], [], .float 5⟩ : ValidationResult).errors = []) :=
  validate_field_is_valid_iff_no_errors (.str "5") [numericDefault]
    ⟨true, [], [], .float 5⟩ (by decide)

/-- The loop of `validate_field` against the per-rule outcome list, with
the three accumulators generalized. -/
theorem validateFieldAux_agg (value : Value) :
    ∀ (rules : List ValidationRuleConfig) (rs : List ValidationResult)
      (errs warns : List String) (cleaned : Value),
      ruleResults value rules = .ok rs →
      validateFieldAux value rules errs warns cleaned =
        .ok ⟨(errs ++ (rs.map ValidationResult.errors).flatten).isEmpty,
             errs ++ (rs.map ValidationResult.errors).flatten,
             warns ++ (rs.map ValidationResult.warnings).flatten,
             rs.foldl mergeClean cleaned⟩ := by
  intro rules
  induction rules with
  | nil =>
    intro rs errs warns cleaned h
    rw [ruleResults] at h
    cases h
    simp [validateFieldAux]
  | cons rc rest ih =>
    intro rs errs warns cleaned h
    rw [ruleResults] at h
    cases happ : applyRule recursionLimit value rc with
    | error e => rw [happ] at h; cases h
    | ok r =>
      rw [happ] at h
      cases hrest : ruleResults value rest with
      | error e => rw [hrest] at h; cases h
      | ok rs2 =>
        rw [hrest] at h
        cases h
        rw [validateFieldAux, happ]
        exact (ih rs2 _ _ _ hrest).trans (by simp [List.append_assoc])

/-- C3, amended: when no rule application raises, every rule is applied in
list order and the merged outcome concatenates the per-rule `errors` and
`warnings` in that order, takes the last non-`None` `cleaned_value`, and
computes `is_valid` as the merged error list being empty — which is *not*
always the AND of the per-rule `is_valid` flags (see the counterexample:
PERCENTAGE can return `is_valid=False` with no errors). -/
theorem validate_field_aggregates_in_order (value : Value)
    (rules : List ValidationRuleConfig) (rs : List ValidationResult)
    (h : ruleResults value rules = .ok rs) :
    validate_field value rules =
      .ok ⟨((rs.map ValidationResult.errors).flatten).isEmpty,
           (rs.map ValidationResult.errors).flatten,
           (rs.map ValidationResult.warnings).flatten,
           rs.foldl mergeClean value⟩ := by
  have := validateFieldAux_agg value rules rs [] [] value h
  simpa [validate_field] using this

/-- Witness for C3's amended aggregation at a concrete run: PERCENTAGE on 2. -/
theorem validate_field_aggregates_in_order_witness :
    validate_field (.int 2) [percentageDefault] =
      .ok ⟨((percOutcomes.map ValidationResult.errors).flatten).isEmpty,
           (percOutcomes.map ValidationResult.errors).flatten,
           (percOutcomes.map ValidationResult.warnings).flatten,
           percOutcomes.foldl mergeClean (.int 2)⟩ :=
  validate_field_aggregates_in_order (.int 2) [percentageDefault] percOutcomes (by decide)

/-- The loop of `validate_field` when every rule short-circuits at the
line 80 skip test. -/
theorem validateFieldAux_skip (v : Value) (hv : isNoneOrEmptyStr v = true) :
    ∀ (rules : List ValidationRuleConfig), (∀ rc ∈ rules, rc.rule_type ≠ .required) →
    ∀ (errs warns : List String) (cleaned : Value),
      validateFieldAux v rules errs warns cleaned = .ok ⟨errs.isEmpty, errs, warns, cleaned⟩ := by
  intro rules
  induction rules with
  | nil => intro _ errs warns cleaned; rfl
  | cons rc rest ih =>
    intro hall errs warns cleaned
    have h1 : rc.rule_type ≠ .required := hall rc (by simp)
    have happ : applyRule recursionLimit v rc = .ok ⟨true, [], [], .none⟩ := by
      rw [applyRule_limit]
      unfold applyRuleGo
      simp [h1, hv]
    rw [validateFieldAux, happ]
    show validateFieldAux v rest (errs ++ []) (warns ++ []) (mergeClean cleaned ⟨true, [], [], .none⟩) = _
    rw [List.append_nil, List.append_nil]
    exact ih (fun rc2 hm => hall rc2 (List.mem_cons_of_mem rc hm)) errs warns cleaned

/-- C6, amended: the "skip the other rules and report valid" policy applies
to `None` and to the empty string only — a whitespace-only string is *not*
skipped (the line 80 test is `value is None or value == ''`), see the
counterexample.  Moreover the outcome keeps the raw value as its
`cleaned_value` (line 54 initializes `cleaned_value = value`), rather than
having none.  An empty rule list likewise yields a valid outcome carrying
the raw value. -/
theorem empty_value_skips_rules :
    (∀ v : Value, validate_field v [] = .ok ⟨true, [], [], v⟩) ∧
    (∀ (v : Value) (rules : List ValidationRuleConfig),
      (v = Value.none ∨ v = .str "") →
      (∀ rc ∈ rules, rc.rule_type ≠ .required) →
      validate_field v rules = .ok ⟨true, [], [], v⟩) := by
  constructor
  · intro v; rfl
  · intro v rules hv hall
    have hv2 : isNoneOrEmptyStr v = true := by
      rcases hv with h | h <;> rw [h] <;> rfl
    exact validateFieldAux_skip v hv2 rules hall [] [] v

/-- Witness for C6 at concrete runs: the empty string under `[NUMERIC]`
and an int under no rules. -/
theorem empty_value_skips_rules_witness :
    validate_field (.str "") [numericDefault] = .ok ⟨true, [], [], .str ""⟩ ∧
    validate_field (.int 7) [] = .ok ⟨true, [], [], .int 7⟩ :=
  ⟨empty_value_skips_rules.2 (.str "") [numericDefault] (Or.inr rfl) (by decide),
   empty_value_skips_rules.1 (.int 7)⟩

/-- Backtracking inversion: a successful `firstSome` succeeds on some
candidate. -/
theorem firstSome_eq_some {α β : Type} :
    ∀ (l : List α) (f : α → Option β) (b : β),
      firstSome l f = Option.some b → ∃ a ∈ l, f a = Option.some b := by
  intro l
  induction l with
  | nil => intro f b h; cases h
  | cons a as ih =>
    intro f b h
    rw [firstSome] at h
    cases hfa : f a with
    | some b2 =>
      rw [hfa] at h
      cases h
      exact ⟨a, List.mem_cons_self a as, hfa⟩
    | none =>
      rw [hfa] at h
      obtain ⟨a2, hm, hf2⟩ := ih f b h
      exact ⟨a2, List.mem_cons_of_mem a hm, hf2⟩

/-- A string accepted by the `%m/%d/%Y` regex starts with one or two
characters followed by `/` (the `%m` directive consumes at most two). -/
theorem matchMDY_shape (cs : List Char) (t : Nat × Nat × Nat)
    (h : matchMDY cs = Option.some t) :
    (∃ c1 r, cs = c1 :: '/' :: r) ∨ (∃ c1 c2 r, cs = c1 :: c2 :: '/' :: r) := by
  rw [matchMDY] at h
  obtain ⟨mc, hmem, hf⟩ := firstSome_eq_some _ _ _ h
  split at hf
  case h_2 => cases hf
  case h_1 r2 hsnd =>
    cases cs with
    | nil => simp [monthCands, twoOneCands] at hmem
    | cons c1 cs2 =>
      cases cs2 with
      | nil =>
        simp only [monthCands, twoOneCands] at hmem
        split at hmem
        · rw [List.mem_singleton] at hmem
          rw [hmem] at hsnd
          cases hsnd
        · cases hmem
      | cons c2 rest =>
        simp only [monthCands, twoOneCands, List.mem_append] at hmem
        rcases hmem with hA | hB
        · split at hA
          · rw [List.mem_singleton] at hA
            rw [hA] at hsnd
            dsimp at hsnd
            right
            exact ⟨c1, c2, r2, by rw [hsnd]⟩
          · cases hA
        · split at hB
          · rw [List.mem_singleton] at hB
            rw [hB] at hsnd
            dsimp at hsnd
            cases hsnd
            left
            exact ⟨c1, r2, rfl⟩
          · cases hB

/-- `%Y` needs four leading digits: a `/` in position 2 defeats it. -/
theorem year4_slash2 (c1 : Char) (r : List Char) : year4 (c1 :: '/' :: r) = Option.none := by
  cases r with
  | nil => rfl
  | cons x xs =>
    cases xs with
    | nil => rfl
    | cons y ys =>
      have hd : ('/' : Char).isDigit = false := rfl
      simp [year4, hd]

/-- `%Y` needs four leading digits: a `/` in position 3 defeats it. -/
theorem year4_slash3 (c1 c2 : Char) (r : List Char) :
    year4 (c1 :: c2 :: '/' :: r) = Option.none := by
  cases r with
  | nil => rfl
  | cons y ys =>
    have hd : ('/' : Char).isDigit = false := rfl
    simp [year4, hd]

/-- When the year regex fails, the whole `%Y-%m-%d` format fails. -/
theorem matchYMD_none (cs : List Char) (h : year4 cs = Option.none) :
    matchYMD cs = Option.none := by
  rw [matchYMD, matchYMDCore, h]

/-- C10: a string accepted by both slash formats is parsed by the DATE
rule as `%m/%d/%Y` (US), because the format list is tried in order, the
leading `%Y-%m-%d` format cannot match a string whose first two positions
feed `%m/`, and `%m/%d/%Y` comes before `%d/%m/%Y`. -/
theorem date_rule_prefers_us_format (s : String) (dUS dEU : PyDate)
    (hUS : strpDate matchMDY s.toList = Option.some dUS)
    (hEU : strpDate matchDMY s.toList = Option.some dEU) :
    validate_field (.str s) [dateDefault] = .ok ⟨true, [], [], .date dUS⟩ := by
  have hm : ∃ t, matchMDY s.toList = Option.some t := by
    rw [strpDate] at hUS
    cases hmm : matchMDY s.toList with
    | none => rw [hmm] at hUS; cases hUS
    | some t => exact ⟨t, rfl⟩
  obtain ⟨t, hm⟩ := hm
  have shape := matchMDY_shape s.toList t hm
  have hy : year4 s.toList = Option.none := by
    rcases shape with ⟨c1, r, hcs⟩ | ⟨c1, c2, r, hcs⟩
    · rw [hcs]; exact year4_slash2 c1 r
    · rw [hcs]; exact year4_slash3 c1 c2 r
  have hymd : strpDate matchYMD s.toList = Option.none := by
    rw [strpDate, matchYMD_none s.toList hy]
    rfl
  have hsne : s ≠ "" := by
    intro he
    subst he
    rcases shape with ⟨c1, r, hcs⟩ | ⟨c1, c2, r, hcs⟩ <;> cases hcs
  have hv : isNoneOrEmptyStr (.str s) = false := by
    simp [isNoneOrEmptyStr, hsne]
  have hpdf : parseDateFormats s = Option.some dUS := by
    unfold parseDateFormats
    rw [hymd, hUS]
  have happ : applyRule recursionLimit (.str s) dateDefault = .ok ⟨true, [], [], .date dUS⟩ := by
    rw [applyRule_limit]
    unfold applyRuleGo
    simp [dateDefault, hv, hpdf]
  show validateFieldAux _ _ _ _ _ = _
  rw [validateFieldAux, happ]
  rfl

/-- Witness for C10: `"03/04/2024"` parses under both slash formats
(April 3rd in `%d/%m/%Y`) and the DATE rule returns March 4th, 2024. -/
theorem date_rule_prefers_us_format_witness :
    validate_field (.str "03/04/2024") [dateDefault] =
      .ok ⟨true, [], [], .date ⟨2024, 3, 4⟩⟩ :=
  date_rule_prefers_us_format "03/04/2024" ⟨2024, 3, 4⟩ ⟨2024, 4, 3⟩ (by decide) (by decide)

end DataValidation
